import Mathlib

/-!
Verification development for the HER2-ResistAID candidate pipeline
(src/pipeline.py and src/agents/*.py).

Modelling conventions:
* Amino-acid sequences are lists of characters; Python strings become List Char.
* Python floats become rationals; round(x, 3) becomes round3 below
  (round-half-up; all concrete values appearing in proofs are away from
  half-thousandth ties, where Python's rounding could differ).
* Python's random module is an external entropy source; it is modelled as an
  explicit stream of natural-number draws (structure Rng).  random.choice picks
  the draw modulo the pool size, random.random() < p (p a decimal literal with
  one digit) reads a draw modulo 10, random.randint(a, b) reads a draw modulo
  the range size.  Theorems quantify over all streams, so every behaviour the
  Python program can exhibit is covered.
* The qdrant retrieval service and the BioPython ProteinAnalysis class are
  external collaborators; their answers are inputs to the model (RetrievalEnv,
  BioProps).
* The textual content of report findings is presentational; findings are
  modelled as tags (inductive Finding).  Python's set-based deduplication order
  is modelled by first-occurrence dedup; only lengths of these lists feed any
  score.
-/

/-- Explicit model of the global random stream: the draws consumed so far are
counted by pos, and stream gives each successive draw. -/
structure Rng where
  stream : Nat → Nat
  pos : Nat
  deriving Inhabited

/-- Advance the stream by one draw. -/
def Rng.advance (r : Rng) : Rng :=
  { stream := r.stream, pos := r.pos + 1 }

/-- The current draw. -/
def Rng.draw (r : Rng) : Nat :=
  r.stream r.pos

/-- Python random.choice over a list (pools in the source are never empty; the
default is returned only for an empty pool). -/
def random_choice (l : List α) (d : α) (r : Rng) : α × Rng :=
  (l.getD (r.draw % l.length) d, r.advance)

/-- Python random.random() < num/10 for a one-digit decimal literal: the
draw modulo 10 falls below num. -/
def random_below (num : Nat) (r : Rng) : Bool × Rng :=
  (decide (r.draw % 10 < num), r.advance)

/-- Python random.randint(a, b) (both ends inclusive, a ≤ b). -/
def random_randint (a b : Nat) (r : Rng) : Nat × Rng :=
  (a + r.draw % (b - a + 1), r.advance)

/-! ## AntibodyDesignerAgent (src/agents/antibody_designer.py) -/

/-- The 20 standard amino acids, in the order the source writes them. -/
def all_amino_acids : List Char := "ACDEFGHIKLMNPQRSTVWY".data

/-- aa_properties['hydrophobic']. -/
def hydrophobic_aas : List Char := "AVLIMFWY".data

/-- aa_properties['hydrophilic']. -/
def hydrophilic_aas : List Char := "STNQRHKDE".data

/-- aa_properties['small']. -/
def small_aas : List Char := "ASGCT".data

/-- aa_properties['aromatic']. -/
def aromatic_aas : List Char := "FWY".data

/-- aa_properties['charged_positive']. -/
def charged_positive_aas : List Char := "RHK".data

/-- aa_properties['charged_negative']. -/
def charged_negative_aas : List Char := "DE".data

/-- aa_properties['polar']. -/
def polar_aas : List Char := "STNQY".data

/-- her2_binding_motifs: preferred residues per known mutation id; none for an
unknown id (each call site supplies its own default, as in the source). -/
def her2_binding_motifs (mutation_id : String) : Option (List Char) :=
  if mutation_id = "L755S" then some "YFWRH".data
  else if mutation_id = "T798I" then some "DESTQ".data
  else if mutation_id = "D769H" then some "STNQY".data
  else if mutation_id = "V777L" then some "YWFHR".data
  else none

/-- frameworks['VH3-23']. -/
def framework_vh3_23 : List Char := "EVQLVESGGGLVQPGGSLRLSCAAS".data

/-- frameworks['VH1-69']. -/
def framework_vh1_69 : List Char := "QVQLVQSGAEVKKPGASVKVSCKAS".data

/-- frameworks['VH4-34']. -/
def framework_vh4_34 : List Char := "QVQLQESGPGLVKPSETLSLTCTVS".data

/-- frameworks['VH3-07']. -/
def framework_vh3_07 : List Char := "EVQLVESGGGLVQPGKSLRLSCAAS".data

/-- frameworks.values() in dict insertion order. -/
def frameworks_values : List (List Char) :=
  [framework_vh3_23, framework_vh1_69, framework_vh4_34, framework_vh3_07]

/-- Recover the framework name from its sequence (the source's
get_framework_name helper). -/
def get_framework_name (seq : List Char) : String :=
  if seq = framework_vh3_23 then "VH3-23"
  else if seq = framework_vh1_69 then "VH1-69"
  else if seq = framework_vh4_34 then "VH4-34"
  else if seq = framework_vh3_07 then "VH3-07"
  else "Custom"

/-- select_framework_for_mutation: kinase-domain mutations draw from the two
stability-favouring frameworks, others from the whole pool. -/
def select_framework_for_mutation (mutation_id : String) (r : Rng) :
    List Char × Rng :=
  if mutation_id = "L755S" ∨ mutation_id = "T798I" then
    random_choice [framework_vh3_23, framework_vh4_34] [] r
  else
    random_choice frameworks_values [] r

/-- Pool of replacements used when breaking a triple repeat: every residue
other than the repeated one. -/
def triple_alternatives (c : Char) : List Char :=
  all_amino_acids.filter (fun aa => aa ≠ c)

/-- Replacement pool of the second repair loop:
'ACDEFGHIKLMNPQRSTVWY' with N, S and G removed. -/
def glyco_replacement_pool : List Char := "ACDEFHIKLMPQRTVWY".data

/-- First loop of fix_problematic_patterns: walk i upward; where three equal
residues stand in a row, replace the middle one by a random different residue.
Mutations are visible to later iterations, as with the Python list. -/
def triple_fix_from (s : List Char) (r : Rng) (i : Nat) : Nat → List Char × Rng
  | 0 => (s, r)
  | fuel + 1 =>
    if i + 2 < s.length then
      if s.getD i ' ' = s.getD (i+1) ' ' ∧ s.getD (i+1) ' ' = s.getD (i+2) ' ' then
        let p := random_choice (triple_alternatives (s.getD (i+1) ' ')) ' ' r
        triple_fix_from (s.set (i+1) p.1) p.2 (i+1) fuel
      else
        triple_fix_from s r (i+1) fuel
    else (s, r)

/-- Second loop of fix_problematic_patterns: where the residue at i is N, the
next one is G or S and the one after is not P, replace the middle residue by a
random residue outside N, S, G. -/
def glyco_fix_from (s : List Char) (r : Rng) (i : Nat) : Nat → List Char × Rng
  | 0 => (s, r)
  | fuel + 1 =>
    if i + 2 < s.length then
      if s.getD i ' ' = 'N' ∧ (s.getD (i+1) ' ' = 'G' ∨ s.getD (i+1) ' ' = 'S')
          ∧ s.getD (i+2) ' ' ≠ 'P' then
        let p := random_choice glyco_replacement_pool ' ' r
        glyco_fix_from (s.set (i+1) p.1) p.2 (i+1) fuel
      else
        glyco_fix_from s r (i+1) fuel
    else (s, r)

/-- fix_problematic_patterns: the triple-repeat loop followed by the
second repair loop. -/
def fix_problematic_patterns (s : List Char) (r : Rng) : List Char × Rng :=
  let p := triple_fix_from s r 0 s.length
  glyco_fix_from p.1 p.2 0 p.1.length

/-- The region argument of generate_optimized_cdr. -/
inductive CdrRegion
  | cdr1
  | cdr2
  | other
  deriving DecidableEq

/-- The residue pool of a region: cdr1 biases polar + small, cdr2 mixes
hydrophilic and hydrophobic, anything else uses the whole alphabet. -/
def cdr_region_pool : CdrRegion → List Char
  | .cdr1 => polar_aas ++ small_aas
  | .cdr2 => hydrophilic_aas ++ hydrophobic_aas
  | .other => all_amino_acids

/-- The raw generation loop of generate_optimized_cdr: each position draws 60%
from the mutation's preferred residues, else from the region pool. -/
def generate_cdr_chars (preferred pool : List Char) : Nat → Rng → List Char × Rng
  | 0, r => ([], r)
  | n + 1, r =>
    let b := random_below 6 r
    let c := if b.1 then random_choice preferred ' ' b.2
             else random_choice pool ' ' b.2
    let rest := generate_cdr_chars preferred pool n c.2
    (c.1 :: rest.1, rest.2)

/-- generate_optimized_cdr: biased generation followed by pattern repair. -/
def generate_optimized_cdr (mutation_id : String) (region : CdrRegion)
    (length : Nat) (r : Rng) : List Char × Rng :=
  let preferred := (her2_binding_motifs mutation_id).getD aromatic_aas
  let raw := generate_cdr_chars preferred (cdr_region_pool region) length r
  fix_problematic_patterns raw.1 raw.2

/-- One position of the raw CDR3 loop: the first two and last two positions
draw from small residues, interior positions draw 80% preferred and otherwise
split evenly between positively charged and aromatic residues. -/
def cdr3_char_at (preferred : List Char) (length i : Nat) (r : Rng) :
    Char × Rng :=
  if i < 2 ∨ i > length - 3 then
    random_choice small_aas ' ' r
  else
    let b := random_below 8 r
    if b.1 then random_choice preferred ' ' b.2
    else
      let b2 := random_below 5 b.2
      if b2.1 then random_choice charged_positive_aas ' ' b2.2
      else random_choice aromatic_aas ' ' b2.2

/-- The raw CDR3 generation loop over positions i < length. -/
def generate_cdr3_chars (preferred : List Char) (length : Nat) (i : Nat) :
    Nat → Rng → List Char × Rng
  | 0, r => ([], r)
  | fuel + 1, r =>
    if i < length then
      let c := cdr3_char_at preferred length i r
      let rest := generate_cdr3_chars preferred length (i+1) fuel c.2
      (c.1 :: rest.1, rest.2)
    else ([], r)

/-- generate_cdr3_for_mutation: random length 8–15, biased composition, then
pattern repair. -/
def generate_cdr3_for_mutation (mutation_id : String) (r : Rng) :
    List Char × Rng :=
  let p := random_randint 8 15 r
  let preferred := (her2_binding_motifs mutation_id).getD "YRDW".data
  let raw := generate_cdr3_chars preferred p.1 0 p.1 p.2
  fix_problematic_patterns raw.1 raw.2

/-- The per-residue loop of mutate_for_mutation: each template residue is
replaced by a preferred residue with probability 0.4 (the source's
mutation_rate default as called from design_candidates). -/
def mutate_chars (preferred : List Char) : List Char → Rng → List Char × Rng
  | [], r => ([], r)
  | a :: rest, r =>
    let b := random_below 4 r
    let c := if b.1 then random_choice preferred ' ' b.2 else (a, b.2)
    let tail := mutate_chars preferred rest c.2
    (c.1 :: tail.1, tail.2)

/-- mutate_for_mutation: point mutation of the template CDR3 toward preferred
residues, then pattern repair. -/
def mutate_for_mutation (template : List Char) (mutation_id : String)
    (r : Rng) : List Char × Rng :=
  let preferred := (her2_binding_motifs mutation_id).getD "YRD".data
  let raw := mutate_chars preferred template r
  fix_problematic_patterns raw.1 raw.2

/-- Fixed framework literal between CDR1 and CDR2. -/
def framework_region_2 : List Char := "WVRQAPGKGLEWV".data

/-- Fixed framework literal between CDR2 and CDR3. -/
def framework_region_3 : List Char := "RFTISADTSKNTAYLQMNSLRAEDTAVYYC".data

/-- Fixed framework literal after CDR3. -/
def framework_region_4 : List Char := "WGQGTLVTVSS".data

/-- construct_full_sequence: scaffold concatenation. -/
def construct_full_sequence (framework cdr1 cdr2 cdr3 : List Char) :
    List Char :=
  framework ++ cdr1 ++ framework_region_2 ++ cdr2 ++ framework_region_3 ++
    cdr3 ++ framework_region_4

/-- Number of residues of s belonging to the pool. -/
def count_in (s pool : List Char) : Nat :=
  (s.filter (fun aa => aa ∈ pool)).length

/-- Number of occurrences of one residue. -/
def count_char (s : List Char) (c : Char) : Nat :=
  (s.filter (fun aa => aa = c)).length

/-- Python round(x, 3), modelled as round half up to 3 decimals. -/
def round3 (q : ℚ) : ℚ := (Int.floor (q * 1000 + 1/2) : ℚ) / 1000

/-- The four design metrics of calculate_design_metrics. -/
structure DesignMetrics where
  confidence : ℚ
  binding_optimization : ℚ
  stability : ℚ
  specificity : ℚ
  deriving DecidableEq, Inhabited

/-- calculate_design_metrics: confidence accumulates from CDR3 length,
cysteine parity, CDR3 aromatic content; the other three metrics are
closed-form fractions of sequence composition. -/
def calculate_design_metrics (sequence cdr3 : List Char)
    (mutation_id : String) : DesignMetrics :=
  let confidence : ℚ := 1/2
  let cdr3_len := cdr3.length
  let confidence :=
    if 8 ≤ cdr3_len ∧ cdr3_len ≤ 12 then confidence + 2/10
    else if 6 ≤ cdr3_len ∧ cdr3_len ≤ 14 then confidence + 1/10
    else confidence
  let cys_count := count_char sequence 'C'
  let confidence :=
    if cys_count % 2 = 0 ∧ 2 ≤ cys_count then confidence + 15/100
    else if cys_count % 2 = 0 then confidence + 1/10
    else confidence * (7/10)
  let aromatic_count := count_in cdr3 aromatic_aas
  let confidence :=
    if 2 ≤ aromatic_count then confidence + 15/100
    else if 1 ≤ aromatic_count then confidence + 5/100
    else confidence
  let preferred := (her2_binding_motifs mutation_id).getD []
  let binding_aa_count := count_in cdr3 preferred
  let binding_optimization :=
    min 1 ((binding_aa_count : ℚ) / (max 1 cdr3_len : ℚ))
  let hydrophobic_fraction :=
    (count_in sequence hydrophobic_aas : ℚ) / (sequence.length : ℚ)
  let stability : ℚ := 1/2 + (1/2) * (3/10 - |3/10 - hydrophobic_fraction|)
  let charged_fraction :=
    (count_in sequence (charged_positive_aas ++ charged_negative_aas) : ℚ) /
      (sequence.length : ℚ)
  let specificity : ℚ := 1 - min 1 (|15/100 - charged_fraction| / (15/100))
  { confidence := min (95/100) (max (3/10) confidence),
    binding_optimization := round3 binding_optimization,
    stability := round3 stability,
    specificity := round3 specificity }

/-- count_glycosylation_sites: occurrences of N-X-S/T with X distinct from P. -/
def count_glycosylation_sites : List Char → Nat
  | a :: b :: c :: rest =>
    (if a = 'N' ∧ b ≠ 'P' ∧ (c = 'S' ∨ c = 'T') then 1 else 0) +
      count_glycosylation_sites (b :: c :: rest)
  | _ => 0

/-- Simplified human codon table of the designer. -/
def codon_map (aa : Char) : List Char :=
  if aa = 'A' then "GCT".data else if aa = 'C' then "TGC".data
  else if aa = 'D' then "GAC".data else if aa = 'E' then "GAG".data
  else if aa = 'F' then "TTC".data else if aa = 'G' then "GGC".data
  else if aa = 'H' then "CAC".data else if aa = 'I' then "ATC".data
  else if aa = 'K' then "AAG".data else if aa = 'L' then "CTG".data
  else if aa = 'M' then "ATG".data else if aa = 'N' then "AAC".data
  else if aa = 'P' then "CCC".data else if aa = 'Q' then "CAG".data
  else if aa = 'R' then "CGC".data else if aa = 'S' then "TCC".data
  else if aa = 'T' then "ACC".data else if aa = 'V' then "GTG".data
  else if aa = 'W' then "TGG".data else if aa = 'Y' then "TAC".data
  else "NNN".data

/-- back_translate_to_dna: codon-wise translation. -/
def back_translate_to_dna (sequence : List Char) : List Char :=
  sequence.flatMap codon_map

/-- A designed candidate.  The candidate_id's MD5 content-hash fragment is
abstracted by the running index idx; all other fields follow the source dict. -/
structure Candidate where
  idx : Nat
  sequence : List Char
  cdr1 : List Char
  cdr2 : List Char
  cdr3 : List Char
  framework : String
  framework_seq : List Char
  length : Nat
  design_confidence : ℚ
  binding_optimization : ℚ
  stability_score : ℚ
  specificity_score : ℚ
  aromatic_count : Nat
  charged_count : Nat
  cysteine_count : Nat
  glycosylation_sites : Nat
  genetic_code : List Char
  deriving DecidableEq, Inhabited

/-- One iteration of the design_candidates loop. -/
def design_one (mutation_id : String) (template_cdr3 : Option (List Char))
    (idx : Nat) (r : Rng) : Candidate × Rng :=
  let fw := select_framework_for_mutation mutation_id r
  let c1 := generate_optimized_cdr mutation_id .cdr1 10 fw.2
  let c2 := generate_optimized_cdr mutation_id .cdr2 16 c1.2
  let c3 := match template_cdr3 with
    | some t => mutate_for_mutation t mutation_id c2.2
    | none => generate_cdr3_for_mutation mutation_id c2.2
  let full := construct_full_sequence fw.1 c1.1 c2.1 c3.1
  let m := calculate_design_metrics full c3.1 mutation_id
  ({ idx := idx,
     sequence := full,
     cdr1 := c1.1,
     cdr2 := c2.1,
     cdr3 := c3.1,
     framework := get_framework_name fw.1,
     framework_seq := fw.1,
     length := full.length,
     design_confidence := m.confidence,
     binding_optimization := m.binding_optimization,
     stability_score := m.stability,
     specificity_score := m.specificity,
     aromatic_count := count_in full aromatic_aas,
     charged_count :=
       count_in full (charged_positive_aas ++ charged_negative_aas),
     cysteine_count := count_char full 'C',
     glycosylation_sites := count_glycosylation_sites full,
     genetic_code := back_translate_to_dna full }, c3.2)

/-- The for-loop body of design_candidates, run n times. -/
def design_loop (mutation_id : String) (template_cdr3 : Option (List Char)) :
    Nat → Nat → Rng → List Candidate × Rng
  | _idx, 0, r => ([], r)
  | idx, n + 1, r =>
    let p := design_one mutation_id template_cdr3 idx r
    let rest := design_loop mutation_id template_cdr3 (idx + 1) n p.2
    (p.1 :: rest.1, rest.2)

/-- design_candidates: generate num_candidates candidates and sort them by
design confidence, descending and stable (Python's list.sort).  A non-positive
Python count makes the range empty, modelled by Int.toNat. -/
def design_candidates (mutation_id : String)
    (template_cdr3 : Option (List Char)) (num_candidates : Int) (r : Rng) :
    List Candidate × Rng :=
  let p := design_loop mutation_id template_cdr3 0 num_candidates.toNat r
  (p.1.mergeSort
    (fun a b => decide (b.design_confidence ≤ a.design_confidence)), p.2)

/-! ## FeasibilityCheckerAgent (src/agents/feasibility_checker.py) -/

/-- A report finding.  The source stores formatted message strings; only their
bucket (and hence count) feeds the score, so findings are modelled as tags. -/
inductive Finding
  | length_ok
  | length_out_of_range
  | cysteine_ok
  | cysteine_high
  | cysteine_low
  | cysteine_odd
  | motifs_found
  | motifs_clean
  | pi_ok
  | pi_extreme
  | gravy_ok
  | gravy_extreme
  | stable_protein
  | possibly_unstable
  | aggregation_risk
  | protease_risk
  | oxidation_risk
  | deamidation_risk
  | isomerization_risk
  | charge_density_risk
  | manufacturing_clean
  | complexity_ok
  | complexity_low
  | signal_peptide_like
  deriving DecidableEq, Inhabited

/-- The finding buckets of the evaluation dict. -/
structure Evaluation where
  passes : List Finding
  warnings : List Finding
  issues : List Finding
  critical_issues : List Finding
  manufacturing_risks : List Finding
  deriving DecidableEq, Inhabited

/-- The empty evaluation dict. -/
def Evaluation.empty : Evaluation :=
  { passes := [], warnings := [], issues := [], critical_issues := [],
    manufacturing_risks := [] }

/-- Bucketwise concatenation.  Each Python check appends findings to the
evaluation dict in place; a check is modelled as the delta it appends and the
dict threading as bucketwise append in call order. -/
def Evaluation.append (e1 e2 : Evaluation) : Evaluation :=
  { passes := e1.passes ++ e2.passes,
    warnings := e1.warnings ++ e2.warnings,
    issues := e1.issues ++ e2.issues,
    critical_issues := e1.critical_issues ++ e2.critical_issues,
    manufacturing_risks := e1.manufacturing_risks ++ e2.manufacturing_risks }

/-- check_sequence_length: 100–250 residues pass, anything else is an issue. -/
def check_sequence_length (s : List Char) : Evaluation :=
  if 100 ≤ s.length ∧ s.length ≤ 250 then
    { Evaluation.empty with passes := [.length_ok] }
  else
    { Evaluation.empty with issues := [.length_out_of_range] }

/-- check_cysteine_patterns: even count in 2–6 passes, even outside warns,
odd is critical. -/
def check_cysteine_patterns (s : List Char) : Evaluation :=
  let cys_count := count_char s 'C'
  if cys_count % 2 = 0 then
    if 2 ≤ cys_count ∧ cys_count ≤ 6 then
      { Evaluation.empty with passes := [.cysteine_ok] }
    else if 6 < cys_count then
      { Evaluation.empty with warnings := [.cysteine_high] }
    else
      { Evaluation.empty with warnings := [.cysteine_low] }
  else
    { Evaluation.empty with critical_issues := [.cysteine_odd] }

/-- Substring membership (Python's in over str). -/
def contains_sub : List Char → List Char → Bool
  | s, pat =>
    match s with
    | [] => pat.isEmpty
    | _ :: rest => pat.isPrefixOf s || contains_sub rest pat

/-- constraints['problematic_motifs']. -/
def problematic_motifs : List (List Char) :=
  ["CCC".data, "WWW".data, "KKKK".data, "DDDD".data, "EEEE".data,
   "RRRR".data, "GPGG".data, "GPGP".data, "NGS".data, "NGT".data, "NGA".data]

/-- check_problematic_motifs: a single issue if any denylist motif occurs. -/
def check_problematic_motifs (s : List Char) : Evaluation :=
  if problematic_motifs.any (fun m => contains_sub s m) then
    { Evaluation.empty with issues := [.motifs_found] }
  else
    { Evaluation.empty with passes := [.motifs_clean] }

/-- The biochemical property bag consumed by the checker: computed by the
external BioPython ProteinAnalysis class (or its fallback estimators), hence
an input of the model. -/
structure BioProps where
  isoelectric_point : ℚ
  gravy : ℚ
  instability_index : ℚ
  deriving DecidableEq, Inhabited

/-- check_biochemical_properties: pI in 5–9 passes else warns; GRAVY in
−1.0–0.5 passes else issues; instability below 40 passes else warns. -/
def check_biochemical_properties (p : BioProps) : Evaluation :=
  let e1 : Evaluation :=
    if 5 ≤ p.isoelectric_point ∧ p.isoelectric_point ≤ 9 then
      { Evaluation.empty with passes := [.pi_ok] }
    else
      { Evaluation.empty with warnings := [.pi_extreme] }
  let e2 : Evaluation :=
    if -1 ≤ p.gravy ∧ p.gravy ≤ 1/2 then
      { Evaluation.empty with passes := [.gravy_ok] }
    else
      { Evaluation.empty with issues := [.gravy_extreme] }
  let e3 : Evaluation :=
    if p.instability_index < 40 then
      { Evaluation.empty with passes := [.stable_protein] }
    else
      { Evaluation.empty with warnings := [.possibly_unstable] }
  (e1.append e2).append e3

/-- manufacturing_constraints['aggregation_risk_residues']. -/
def aggregation_risk_residues : List Char := "WFYILV".data

/-- Longest run of aggregation-prone residues (check_aggregation_risk). -/
def max_hydrophobic_run (s : List Char) : Nat :=
  (s.foldl
    (fun p aa =>
      if aa ∈ aggregation_risk_residues then (p.1 + 1, max p.2 (p.1 + 1))
      else (0, p.2))
    ((0, 0) : Nat × Nat)).2

/-- manufacturing_constraints['protease_sites']. -/
def protease_sites : List (List Char) :=
  ["DP".data, "TP".data, "GP".data, "AP".data, "KP".data, "RP".data]

/-- check_aggregation_risk: a run of 5 or more is a risk. -/
def check_aggregation_risk (s : List Char) : Option Finding :=
  if 5 ≤ max_hydrophobic_run s then some .aggregation_risk else none

/-- check_protease_sites: any protease dipeptide is a risk. -/
def check_protease_sites (s : List Char) : Option Finding :=
  if protease_sites.any (fun site => contains_sub s site) then
    some .protease_risk
  else none

/-- check_oxidation_risk: more than 3 Met, else more than 2 Trp, is a risk. -/
def check_oxidation_risk (s : List Char) : Option Finding :=
  if 3 < count_char s 'M' then some .oxidation_risk
  else if 2 < count_char s 'W' then some .oxidation_risk
  else none

/-- check_degradation_risk: scan for the first deamidation (NG/NS/NT) or
isomerization (DG/DS/DT) dipeptide; deamidation is tested first at each
position. -/
def check_degradation_risk : List Char → Option Finding
  | a :: b :: rest =>
    if a = 'N' ∧ (b = 'G' ∨ b = 'S' ∨ b = 'T') then some .deamidation_risk
    else if a = 'D' ∧ (b = 'G' ∨ b = 'S' ∨ b = 'T') then
      some .isomerization_risk
    else check_degradation_risk (b :: rest)
  | _ => none

/-- Residues counted as charged by check_charge_density. -/
def charged_residues : List Char := "DEKRH".data

/-- check_charge_density: charged fraction above 0.25 is a risk. -/
def check_charge_density (s : List Char) : Option Finding :=
  if (count_in s charged_residues : ℚ) / (s.length : ℚ) > 25/100 then
    some .charge_density_risk
  else none

/-- check_manufacturing_issues: collect the five risk scans; if none fires the
check passes. -/
def check_manufacturing_issues (s : List Char) : Evaluation :=
  let risks :=
    (check_aggregation_risk s).toList ++ (check_protease_sites s).toList ++
    (check_oxidation_risk s).toList ++ (check_degradation_risk s).toList ++
    (check_charge_density s).toList
  if risks = [] then
    { Evaluation.empty with passes := [.manufacturing_clean] }
  else
    { Evaluation.empty with manufacturing_risks := risks }

/-- The 2-mers of a sequence (calculate_sequence_complexity, k = 2). -/
def two_mers (s : List Char) : List (List Char) :=
  (List.range (s.length - 1)).map (fun i => (s.drop i).take 2)

/-- calculate_sequence_complexity: distinct 2-mers over total 2-mers. -/
def calculate_sequence_complexity (s : List Char) : ℚ :=
  if (two_mers s).length = 0 then 0
  else ((two_mers s).dedup.length : ℚ) / ((two_mers s).length : ℚ)

/-- check_structural_features: complexity below 0.65 warns; a first-20-residue
window with more than 5 Leu and more than 3 Ala warns. -/
def check_structural_features (s : List Char) : Evaluation :=
  let e1 : Evaluation :=
    if calculate_sequence_complexity s ≥ 65/100 then
      { Evaluation.empty with passes := [.complexity_ok] }
    else
      { Evaluation.empty with warnings := [.complexity_low] }
  let e2 : Evaluation :=
    if 5 < count_char (s.take 20) 'L' ∧ 3 < count_char (s.take 20) 'A' then
      { Evaluation.empty with warnings := [.signal_peptide_like] }
    else Evaluation.empty
  e1.append e2

/-- The full check battery of evaluate_candidate, in source call order. -/
def run_checks (s : List Char) (p : BioProps) : Evaluation :=
  (((((check_sequence_length s).append (check_cysteine_patterns s)).append
    (check_problematic_motifs s)).append
    (check_biochemical_properties p)).append
    (check_manufacturing_issues s)).append
    (check_structural_features s)

/-- The check battery without the cysteine check (used to compare two
sequences that agree on every other check). -/
def run_checks_other (s : List Char) (p : BioProps) : Evaluation :=
  ((((check_sequence_length s).append
    (check_problematic_motifs s)).append
    (check_biochemical_properties p)).append
    (check_manufacturing_issues s)).append
    (check_structural_features s)

/-- The penalty product of calculate_final_score:
0.5^critical · 0.8^issue · 0.9^warning · 0.95^risk. -/
def penalty_product (e : Evaluation) : ℚ :=
  (1/2) ^ e.critical_issues.length * (8/10) ^ e.issues.length *
    (9/10) ^ e.warnings.length * (95/100) ^ e.manufacturing_risks.length

/-- The pass bonus of calculate_final_score: 1 + 0.02 per pass. -/
def pass_bonus (e : Evaluation) : ℚ :=
  1 + (2/100) * e.passes.length

/-- calculate_final_score: penalties, bonus, clamp at 1, round to 3 decimals
(the score starts at 1.0 and never goes below 0, so only the upper clamp is
effective). -/
def calculate_final_score (e : Evaluation) : ℚ :=
  round3 (min 1 (penalty_product e * pass_bonus e))

/-- categorize_feasibility. -/
def categorize_feasibility (score : ℚ) : String :=
  if score ≥ 9/10 then "Excellent"
  else if score ≥ 8/10 then "Good"
  else if score ≥ 7/10 then "Moderate"
  else if score ≥ 6/10 then "Marginal"
  else "Poor"

/-- The feasibility report built by evaluate_candidate (recommendation strings
are presentational and omitted). -/
structure FeasibilityReport where
  feasibility_score : ℚ
  feasibility_category : String
  evaluation : Evaluation
  biochemical_properties : BioProps
  deriving DecidableEq, Inhabited

/-- State-passing rendering of evaluate_candidate: the candidate object is
threaded through the call and handed back next to the freshly built report;
the body reads candidate fields and writes only into the fresh evaluation
dict. -/
def evaluate_candidate_tracked (c : Candidate) (p : BioProps) :
    Candidate × FeasibilityReport :=
  let sequence := c.sequence
  let e := run_checks sequence p
  let score := calculate_final_score e
  (c,
   { feasibility_score := score,
     feasibility_category := categorize_feasibility score,
     evaluation := e,
     biochemical_properties := p })

/-- evaluate_candidate: the report component. -/
def evaluate_candidate (c : Candidate) (p : BioProps) : FeasibilityReport :=
  (evaluate_candidate_tracked c p).2

/-- Feasibility score of a bare sequence under a given property bag. -/
def feasibility_score_of (s : List Char) (p : BioProps) : ℚ :=
  calculate_final_score (run_checks s p)

/-! ## SimilarityScoutAgent (src/agents/similarity_scout.py) -/

/-- A retrieval hit as the scout sees it: only the similarity score matters
for scoring; a missing score key is none. -/
structure Hit where
  score : Option ℚ
  deriving DecidableEq, Inhabited

/-- The scores kept by the scout's list comprehensions: present and truthy
(Python treats a 0 similarity as falsy and skips it). -/
def truthy_scores (hits : List Hit) : List ℚ :=
  (hits.filterMap Hit.score).filter (fun q => q ≠ 0)

/-- Mean of a score list, 0 when empty (the source's conditional mean). -/
def mean_or_zero (scores : List ℚ) : ℚ :=
  if scores = [] then 0 else scores.sum / (scores.length : ℚ)

/-- calculate_evidence_score: 0.3 when both retrievals are empty, else the
0.6/0.4 weighted mean with a 1.1 boost (capped at 1) when both score lists are
non-empty, rounded to 3 decimals. -/
def calculate_evidence_score (mutations literature : List Hit) : ℚ :=
  if mutations = [] ∧ literature = [] then 3/10
  else
    let mutation_scores := truthy_scores mutations
    let literature_scores := truthy_scores literature
    let avg_mutation_score := mean_or_zero mutation_scores
    let avg_literature_score := mean_or_zero literature_scores
    let combined := (6/10) * avg_literature_score + (4/10) * avg_mutation_score
    let combined :=
      if mutation_scores ≠ [] ∧ literature_scores ≠ [] then
        min 1 (combined * (11/10))
      else combined
    round3 combined

/-- The result dict of find_mutation_analogs (the static clinical-context fact
sheet is presentational and omitted). -/
structure ScoutResult where
  query_mutation : String
  similar_mutations : List Hit
  supporting_literature : List Hit
  evidence_score : ℚ
  total_analogs_found : Nat
  total_papers_found : Nat
  deriving DecidableEq, Inhabited

/-- find_mutation_analogs: both retrieval answers are inputs; the evidence
score and counts are derived. -/
def find_mutation_analogs (mutation_id : String)
    (similar_mutations literature : List Hit) : ScoutResult :=
  { query_mutation := mutation_id,
    similar_mutations := similar_mutations,
    supporting_literature := literature,
    evidence_score := calculate_evidence_score similar_mutations literature,
    total_analogs_found := similar_mutations.length,
    total_papers_found := literature.length }

/-! ## EvidenceLinkerAgent (src/agents/evidence_linker.py) -/

/-- A literature record as the linker sees it. -/
structure Paper where
  pmid : String
  abstract : String
  deriving DecidableEq, Inhabited

/-- Substring membership over strings. -/
def contains_str (s pat : String) : Bool :=
  contains_sub s.data pat.data

/-- extract_key_motifs: the candidate CDR3's aromatic residues, deduplicated
(Python's set order abstracted as first occurrence). -/
def extract_key_motifs (c : Candidate) : List Char :=
  (c.cdr3.filter (fun aa => aa ∈ "FWY".data)).dedup

/-- The query string built by link_evidence. -/
def linker_query (mutation_id : String) (c : Candidate) : String :=
  "HER2 " ++ mutation_id ++ " antibody binding " ++
    String.intercalate ", " ((extract_key_motifs c).map (fun ch => String.mk [ch]))

/-- The sentence filter of extract_evidence_statements: mentions the mutation
id and binding or affinity, case-insensitively. -/
def sentence_relevant (mutation_id : String) (sentence : String) : Bool :=
  contains_str sentence.toLower mutation_id.toLower &&
    (contains_str sentence.toLower "binding" ||
      contains_str sentence.toLower "affinity")

/-- The 200-character truncation of extract_evidence_statements. -/
def truncate_statement (sentence : String) : String :=
  sentence.take 200 ++ "..."

/-- extract_evidence_statements: relevant sentences of all abstracts,
truncated, deduplicated (set order abstracted as first occurrence), capped
at 3. -/
def extract_evidence_statements (papers : List Paper) (mutation_id : String) :
    List String :=
  ((papers.flatMap (fun p =>
      ((p.abstract.splitOn ". ").filter
        (fun s => sentence_relevant mutation_id s)).map
        truncate_statement)).dedup).take 3

/-- calculate_support_score: 0.4 with no papers; else a paper/statement count
base capped at 0.95, blended 70/30 with the candidate's design confidence and
rounded to 3 decimals. -/
def calculate_support_score (c : Candidate) (papers : List Paper)
    (statements : List String) : ℚ :=
  if papers = [] then 4/10
  else
    let base_score :=
      min (95/100)
        (4/10 + (papers.length : ℚ) * (1/10) + (statements.length : ℚ) * (5/100))
    round3 (base_score * (7/10) + c.design_confidence * (3/10))

/-- The result dict of link_evidence. -/
structure EvidenceLink where
  scientific_support_score : ℚ
  supporting_papers : List String
  evidence_statements : List String
  confidence_level : String
  deriving DecidableEq, Inhabited

/-- link_evidence: the retrieval answer for the built query is an input. -/
def link_evidence (mutation_id : String) (c : Candidate)
    (relevant_papers : List Paper) : EvidenceLink :=
  let statements := extract_evidence_statements relevant_papers mutation_id
  { scientific_support_score :=
      calculate_support_score c relevant_papers statements,
    supporting_papers := relevant_papers.map Paper.pmid,
    evidence_statements := statements,
    confidence_level :=
      if 2 < relevant_papers.length then "High"
      else if 0 < relevant_papers.length then "Medium"
      else "Low" }

/-! ## RealDataOrchestrator (src/pipeline.py) -/

/-- An antibody record from search_antibodies_by_mutation. -/
structure AntibodyRec where
  name : String
  cdr3 : List Char
  deriving DecidableEq, Inhabited

/-- The external retrieval collaborator's answers for one run: the scout's two
searches, the antibody search, and the linker's per-query literature search. -/
structure RetrievalEnv where
  scout_mutation_hits : List Hit
  scout_literature_hits : List Hit
  relevant_antibodies : List AntibodyRec
  linker_papers : String → List Paper

/-- One entry of ranked_candidates: the merged candidate record with the
feasibility report, evidence link, combined score and the shared run-level
evidence score. -/
structure RankedCandidate where
  cand : Candidate
  feas : FeasibilityReport
  link : EvidenceLink
  combined_score : ℚ
  evidence_score : ℚ
  deriving DecidableEq, Inhabited

/-- The per-candidate body of the evaluation loop in run_for_mutation:
feasibility check, evidence link, weighted combine. -/
def score_candidate (evidence_score : ℚ) (mutation_id : String)
    (env : RetrievalEnv) (bio : List Char → BioProps) (c : Candidate) :
    RankedCandidate :=
  let feasibility := evaluate_candidate c (bio c.sequence)
  let evidence_link :=
    link_evidence mutation_id c (env.linker_papers (linker_query mutation_id c))
  let support_score := evidence_link.scientific_support_score
  let combined_score :=
    (3/10) * support_score + (1/10) * evidence_score +
      (3/10) * c.design_confidence + (3/10) * feasibility.feasibility_score
  { cand := c,
    feas := feasibility,
    link := evidence_link,
    combined_score := combined_score,
    evidence_score := evidence_score }

/-- ranked_candidates.sort(key=combined_score, reverse=True): Python's stable
descending sort, modelled by stable merge sort under the reversed comparison. -/
def rank_candidates (l : List RankedCandidate) : List RankedCandidate :=
  l.mergeSort (fun a b => decide (b.combined_score ≤ a.combined_score))

/-- The final report of generate_report (timestamp, file persistence and the
recommendation strings are external or presentational and omitted). -/
structure Report where
  mutation : String
  candidates_generated : Nat
  top_score : ℚ
  average_feasibility : ℚ
  similar_mutations : Nat
  relevant_papers : Nat
  evidence_score : ℚ
  top_candidates : List RankedCandidate
  deriving Inhabited

/-- generate_report over the already-ranked candidate list. -/
def generate_report (mutation_id : String) (candidates : List RankedCandidate)
    (scout_results : ScoutResult) : Report :=
  { mutation := mutation_id,
    candidates_generated := candidates.length,
    top_score := ((candidates.head?).map RankedCandidate.combined_score).getD 0,
    average_feasibility :=
      if candidates = [] then 0
      else (candidates.map (fun c => c.feas.feasibility_score)).sum /
        (candidates.length : ℚ),
    similar_mutations := scout_results.similar_mutations.length,
    relevant_papers := scout_results.supporting_literature.length,
    evidence_score := scout_results.evidence_score,
    top_candidates := candidates.take 3 }

/-- The ranked candidate list produced by one run: scout, template pick,
design, per-candidate scoring, stable descending sort. -/
def pipeline_ranked (mutation_id : String) (num_candidates : Int)
    (env : RetrievalEnv) (bio : List Char → BioProps) (r : Rng) :
    List RankedCandidate :=
  let scout_results :=
    find_mutation_analogs mutation_id env.scout_mutation_hits
      env.scout_literature_hits
  let template_cdr3 := (env.relevant_antibodies.head?).map AntibodyRec.cdr3
  let candidates :=
    (design_candidates mutation_id template_cdr3 num_candidates r).1
  rank_candidates
    (candidates.map
      (score_candidate scout_results.evidence_score mutation_id env bio))

/-- run_for_mutation: the full pipeline.  The source raises no exception on
any path of its own (retrieval and file persistence are external); the Except
layer records where a failure would surface. -/
def run_for_mutation (mutation_id : String) (num_candidates : Int)
    (env : RetrievalEnv) (bio : List Char → BioProps) (r : Rng) :
    Except String Report :=
  let scout_results :=
    find_mutation_analogs mutation_id env.scout_mutation_hits
      env.scout_literature_hits
  Except.ok
    (generate_report mutation_id
      (pipeline_ranked mutation_id num_candidates env bio r) scout_results)

/-! ## Concrete fixtures used by witnesses and counterexamples -/

/-- A retrieval environment in which every search returns nothing. -/
def empty_env : RetrievalEnv :=
  { scout_mutation_hits := [],
    scout_literature_hits := [],
    relevant_antibodies := [],
    linker_papers := fun _ => [] }

/-- A fixed in-range biochemical property bag. -/
def bio_default : BioProps :=
  { isoelectric_point := 7, gravy := 0, instability_index := 30 }

/-- Property oracle answering the fixed bag for every sequence. -/
def bio_const : List Char → BioProps := fun _ => bio_default

/-- The all-zero draw stream. -/
def rng_zero : Rng := { stream := fun _ => 0, pos := 0 }

/-- Draw stream under which generate_optimized_cdr for D769H produces the
loop NASYQYQYQY (each position consumes a branch draw and a choice draw). -/
def rng_c3 : Rng :=
  { stream := fun k =>
      [0, 2, 6, 5, 0, 0, 0, 4, 0, 3, 0, 4, 0, 3, 0, 4, 0, 3, 0, 4].getD k 0,
    pos := 0 }

/-- A 20-residue template CDR3 (longer than the 8–15 synthesis range). -/
def templ20 : List Char := "AAAAAAAAAAAAAAAAAAAA".data

/-- 20-residue test sequence with one cysteine. -/
def seq_odd : List Char := "GAGAGAGAGACAGAGAGAGA".data

/-- The same sequence with the cysteine replaced (zero cysteines). -/
def seq_even0 : List Char := "GAGAGAGAGAGAGAGAGAGA".data

/-- The same sequence with two cysteines. -/
def seq_even2 : List Char := "GACAGAGAGACAGAGAGAGA".data

/-- The evaluation produced by every non-cysteine check on the three
20-residue test sequences under bio_default. -/
def eval_other_20 : Evaluation :=
  { passes := [.motifs_clean, .pi_ok, .gravy_ok, .stable_protein,
      .manufacturing_clean],
    warnings := [.complexity_low],
    issues := [.length_out_of_range],
    critical_issues := [],
    manufacturing_risks := [] }

/-- A ranked-candidate fixture with a given index and combined score. -/
def rc_fix (i : Nat) (q : ℚ) : RankedCandidate :=
  { cand := { (default : Candidate) with idx := i },
    feas := default,
    link := default,
    combined_score := q,
    evidence_score := 3/10 }

/-- A scout-result fixture over empty retrievals. -/
def scout0 : ScoutResult := find_mutation_analogs "L755S" [] []

/-! ## General lemmas -/

/-- The default head of a non-empty list is a member. -/
theorem headD_mem {α : Type} {l : List α} (h : l ≠ []) (d : α) :
    l.headD d ∈ l := by
  cases l with
  | nil => exact absurd rfl h
  | cons a t => simp [List.headD]

/-- The triple-repeat loop preserves length. -/
theorem length_triple_fix_from :
    ∀ (fuel : Nat) (s : List Char) (r : Rng) (i : Nat),
      ((triple_fix_from s r i fuel).1).length = s.length := by
  intro fuel
  induction fuel with
  | zero => intro s r i; rfl
  | succ n ih =>
    intro s r i
    rw [triple_fix_from]
    split
    · split
      · rw [ih]
        simp
      · exact ih _ _ _
    · rfl

/-- The second repair loop preserves length. -/
theorem length_glyco_fix_from :
    ∀ (fuel : Nat) (s : List Char) (r : Rng) (i : Nat),
      ((glyco_fix_from s r i fuel).1).length = s.length := by
  intro fuel
  induction fuel with
  | zero => intro s r i; rfl
  | succ n ih =>
    intro s r i
    rw [glyco_fix_from]
    split
    · split
      · rw [ih]
        simp
      · exact ih _ _ _
    · rfl

/-- Pattern repair preserves length. -/
theorem length_fix_problematic_patterns (s : List Char) (r : Rng) :
    ((fix_problematic_patterns s r).1).length = s.length := by
  rw [fix_problematic_patterns]
  rw [length_glyco_fix_from, length_triple_fix_from]

/-- The raw CDR generator emits exactly the requested number of residues. -/
theorem length_generate_cdr_chars (preferred pool : List Char) :
    ∀ (n : Nat) (r : Rng),
      ((generate_cdr_chars preferred pool n r).1).length = n := by
  intro n
  induction n with
  | zero => intro r; rfl
  | succ k ih =>
    intro r
    rw [generate_cdr_chars]
    simp [ih]

/-- generate_optimized_cdr emits exactly the requested number of residues. -/
theorem length_generate_optimized_cdr (mutation_id : String)
    (region : CdrRegion) (length : Nat) (r : Rng) :
    ((generate_optimized_cdr mutation_id region length r).1).length = length := by
  rw [generate_optimized_cdr, length_fix_problematic_patterns,
    length_generate_cdr_chars]

/-- The raw CDR3 loop emits min fuel (length − i) residues. -/
theorem length_generate_cdr3_chars (preferred : List Char) (length : Nat) :
    ∀ (fuel i : Nat) (r : Rng),
      ((generate_cdr3_chars preferred length i fuel r).1).length =
        min fuel (length - i) := by
  intro fuel
  induction fuel with
  | zero => intro i r; simp [generate_cdr3_chars]
  | succ k ih =>
    intro i r
    rw [generate_cdr3_chars]
    split
    · simp only [List.length_cons, ih]
      omega
    · simp only [List.length_nil]
      omega

/-- The synthesized CDR3 has between 8 and 15 residues. -/
theorem length_generate_cdr3_for_mutation (mutation_id : String) (r : Rng) :
    8 ≤ ((generate_cdr3_for_mutation mutation_id r).1).length ∧
      ((generate_cdr3_for_mutation mutation_id r).1).length ≤ 15 := by
  rw [generate_cdr3_for_mutation]
  simp only [length_fix_problematic_patterns, length_generate_cdr3_chars,
    random_randint]
  have h : r.draw % (15 - 8 + 1) < 8 := Nat.mod_lt _ (by omega)
  omega

/-- The point-mutation loop preserves length. -/
theorem length_mutate_chars (preferred : List Char) :
    ∀ (template : List Char) (r : Rng),
      ((mutate_chars preferred template r).1).length = template.length := by
  intro template
  induction template with
  | nil => intro r; rfl
  | cons a rest ih =>
    intro r
    rw [mutate_chars]
    simp [ih]

/-- mutate_for_mutation preserves the template length. -/
theorem length_mutate_for_mutation (template : List Char)
    (mutation_id : String) (r : Rng) :
    ((mutate_for_mutation template mutation_id r).1).length =
      template.length := by
  rw [mutate_for_mutation, length_fix_problematic_patterns,
    length_mutate_chars]

/-- Length of the assembled scaffold. -/
theorem length_construct_full_sequence (fw c1 c2 c3 : List Char) :
    (construct_full_sequence fw c1 c2 c3).length =
      fw.length + c1.length + framework_region_2.length + c2.length +
        framework_region_3.length + c3.length + framework_region_4.length := by
  simp [construct_full_sequence]
  omega

/-- Structure of one designed candidate: scaffold length decomposition, loop
lengths, and the CDR3 length regime of each branch. -/
theorem design_one_spec (mutation_id : String)
    (template_cdr3 : Option (List Char)) (idx : Nat) (r : Rng) :
    ((design_one mutation_id template_cdr3 idx r).1).sequence.length =
      ((design_one mutation_id template_cdr3 idx r).1).framework_seq.length +
      ((design_one mutation_id template_cdr3 idx r).1).cdr1.length +
      framework_region_2.length +
      ((design_one mutation_id template_cdr3 idx r).1).cdr2.length +
      framework_region_3.length +
      ((design_one mutation_id template_cdr3 idx r).1).cdr3.length +
      framework_region_4.length ∧
    ((design_one mutation_id template_cdr3 idx r).1).cdr1.length = 10 ∧
    ((design_one mutation_id template_cdr3 idx r).1).cdr2.length = 16 ∧
    (template_cdr3 = none →
      8 ≤ ((design_one mutation_id template_cdr3 idx r).1).cdr3.length ∧
        ((design_one mutation_id template_cdr3 idx r).1).cdr3.length ≤ 15) ∧
    (∀ t, template_cdr3 = some t →
      ((design_one mutation_id template_cdr3 idx r).1).cdr3.length =
        t.length) := by
  cases template_cdr3 with
  | none =>
    simp only [design_one]
    refine ⟨length_construct_full_sequence _ _ _ _,
      length_generate_optimized_cdr _ _ _ _,
      length_generate_optimized_cdr _ _ _ _, ?_, ?_⟩
    · intro _
      exact length_generate_cdr3_for_mutation _ _
    · intro t ht
      cases ht
  | some t =>
    simp only [design_one]
    refine ⟨length_construct_full_sequence _ _ _ _,
      length_generate_optimized_cdr _ _ _ _,
      length_generate_optimized_cdr _ _ _ _, ?_, ?_⟩
    · intro h
      cases h
    · intro t' ht'
      cases ht'
      exact length_mutate_for_mutation _ _ _

/-- Every candidate of the design loop is produced by design_one. -/
theorem mem_design_loop (mutation_id : String)
    (template_cdr3 : Option (List Char)) :
    ∀ (n idx : Nat) (r : Rng) (c : Candidate),
      c ∈ (design_loop mutation_id template_cdr3 idx n r).1 →
      ∃ (j : Nat) (r' : Rng),
        c = (design_one mutation_id template_cdr3 j r').1 := by
  intro n
  induction n with
  | zero => intro idx r c h; simp [design_loop] at h
  | succ k ih =>
    intro idx r c h
    rw [design_loop] at h
    simp only [List.mem_cons] at h
    cases h with
    | inl h => exact ⟨idx, r, h⟩
    | inr h => exact ih _ _ _ h

/-- The design loop emits exactly n candidates. -/
theorem length_design_loop (mutation_id : String)
    (template_cdr3 : Option (List Char)) :
    ∀ (n idx : Nat) (r : Rng),
      ((design_loop mutation_id template_cdr3 idx n r).1).length = n := by
  intro n
  induction n with
  | zero => intro idx r; rfl
  | succ k ih =>
    intro idx r
    rw [design_loop]
    simp [ih]

/-- design_candidates emits toNat num_candidates candidates. -/
theorem length_design_candidates (mutation_id : String)
    (template_cdr3 : Option (List Char)) (num_candidates : Int) (r : Rng) :
    ((design_candidates mutation_id template_cdr3 num_candidates r).1).length =
      num_candidates.toNat := by
  rw [design_candidates]
  simp [List.length_mergeSort, length_design_loop]

/-- Every candidate emitted by design_candidates is produced by design_one. -/
theorem mem_design_candidates (mutation_id : String)
    (template_cdr3 : Option (List Char)) (num_candidates : Int) (r : Rng)
    (c : Candidate)
    (h : c ∈ (design_candidates mutation_id template_cdr3 num_candidates r).1) :
    ∃ (j : Nat) (r' : Rng),
      c = (design_one mutation_id template_cdr3 j r').1 := by
  rw [design_candidates] at h
  simp only [List.mem_mergeSort] at h
  exact mem_design_loop _ _ _ _ _ _ h

/-- The ranked pipeline list has one entry per requested candidate. -/
theorem length_pipeline_ranked (mutation_id : String) (num_candidates : Int)
    (env : RetrievalEnv) (bio : List Char → BioProps) (r : Rng) :
    (pipeline_ranked mutation_id num_candidates env bio r).length =
      num_candidates.toNat := by
  rw [pipeline_ranked, rank_candidates]
  simp [List.length_mergeSort, length_design_candidates]

/-- Pass count of the full battery vs the battery without the cysteine check. -/
theorem passes_length_run_checks (s : List Char) (p : BioProps) :
    (run_checks s p).passes.length =
      (run_checks_other s p).passes.length +
        (check_cysteine_patterns s).passes.length := by
  simp [run_checks, run_checks_other, Evaluation.append]
  omega

/-- Warning count of the full battery vs the battery without the cysteine
check. -/
theorem warnings_length_run_checks (s : List Char) (p : BioProps) :
    (run_checks s p).warnings.length =
      (run_checks_other s p).warnings.length +
        (check_cysteine_patterns s).warnings.length := by
  simp [run_checks, run_checks_other, Evaluation.append]
  omega

/-- Issue count of the full battery vs the battery without the cysteine
check. -/
theorem issues_length_run_checks (s : List Char) (p : BioProps) :
    (run_checks s p).issues.length =
      (run_checks_other s p).issues.length +
        (check_cysteine_patterns s).issues.length := by
  simp [run_checks, run_checks_other, Evaluation.append]
  omega

/-- Critical-issue count of the full battery vs the battery without the
cysteine check. -/
theorem critical_length_run_checks (s : List Char) (p : BioProps) :
    (run_checks s p).critical_issues.length =
      (run_checks_other s p).critical_issues.length +
        (check_cysteine_patterns s).critical_issues.length := by
  simp [run_checks, run_checks_other, Evaluation.append]
  omega

/-- Manufacturing-risk count of the full battery vs the battery without the
cysteine check. -/
theorem risks_length_run_checks (s : List Char) (p : BioProps) :
    (run_checks s p).manufacturing_risks.length =
      (run_checks_other s p).manufacturing_risks.length +
        (check_cysteine_patterns s).manufacturing_risks.length := by
  simp [run_checks, run_checks_other, Evaluation.append]
  omega

/-- An odd cysteine count yields exactly one critical finding. -/
theorem check_cysteine_odd (s : List Char)
    (h : count_char s 'C' % 2 = 1) :
    check_cysteine_patterns s =
      { Evaluation.empty with critical_issues := [.cysteine_odd] } := by
  rw [check_cysteine_patterns]
  rw [if_neg (by omega)]

/-- An even cysteine count in 2–6 yields exactly one pass. -/
theorem check_cysteine_even_ok (s : List Char)
    (h0 : count_char s 'C' % 2 = 0) (h2 : 2 ≤ count_char s 'C')
    (h6 : count_char s 'C' ≤ 6) :
    check_cysteine_patterns s =
      { Evaluation.empty with passes := [.cysteine_ok] } := by
  rw [check_cysteine_patterns]
  rw [if_pos h0, if_pos ⟨h2, h6⟩]

/-- The penalty product is non-negative. -/
theorem penalty_product_nonneg (e : Evaluation) :
    0 ≤ penalty_product e := by
  rw [penalty_product]
  positivity

/-- The combined-score comparator is transitive. -/
theorem combined_le_trans (a b c : RankedCandidate)
    (h1 : decide (b.combined_score ≤ a.combined_score) = true)
    (h2 : decide (c.combined_score ≤ b.combined_score) = true) :
    decide (c.combined_score ≤ a.combined_score) = true := by
  simp only [decide_eq_true_iff] at *
  exact le_trans h2 h1

/-- The combined-score comparator is total. -/
theorem combined_le_total (a b : RankedCandidate) :
    (decide (b.combined_score ≤ a.combined_score) ||
      decide (a.combined_score ≤ b.combined_score)) = true := by
  simp only [Bool.or_eq_true, decide_eq_true_iff]
  exact le_total _ _

/-- A zero charged count means no charge-density risk. -/
theorem check_charge_density_zero (s : List Char)
    (h : count_in s charged_residues = 0) :
    check_charge_density s = none := by
  rw [check_charge_density]
  rw [if_neg]
  rw [h]
  norm_num

/-- The in-range fixture bag passes all three property checks. -/
theorem check_bio_default :
    check_biochemical_properties bio_default =
      { Evaluation.empty with passes := [.pi_ok, .gravy_ok, .stable_protein] } := by
  simp only [check_biochemical_properties, bio_default]
  norm_num [Evaluation.append, Evaluation.empty]

/-- The odd test sequence raises no manufacturing risk. -/
theorem check_manu_seq_odd :
    check_manufacturing_issues seq_odd =
      { Evaluation.empty with passes := [.manufacturing_clean] } := by
  rw [check_manufacturing_issues]
  rw [check_charge_density_zero seq_odd (by decide)]
  rw [show check_aggregation_risk seq_odd = none from by decide]
  rw [show check_protease_sites seq_odd = none from by decide]
  rw [show check_oxidation_risk seq_odd = none from by decide]
  rw [show check_degradation_risk seq_odd = none from by decide]
  rfl

/-- The zero-cysteine test sequence raises no manufacturing risk. -/
theorem check_manu_seq_even0 :
    check_manufacturing_issues seq_even0 =
      { Evaluation.empty with passes := [.manufacturing_clean] } := by
  rw [check_manufacturing_issues]
  rw [check_charge_density_zero seq_even0 (by decide)]
  rw [show check_aggregation_risk seq_even0 = none from by decide]
  rw [show check_protease_sites seq_even0 = none from by decide]
  rw [show check_oxidation_risk seq_even0 = none from by decide]
  rw [show check_degradation_risk seq_even0 = none from by decide]
  rfl

/-- The two-cysteine test sequence raises no manufacturing risk. -/
theorem check_manu_seq_even2 :
    check_manufacturing_issues seq_even2 =
      { Evaluation.empty with passes := [.manufacturing_clean] } := by
  rw [check_manufacturing_issues]
  rw [check_charge_density_zero seq_even2 (by decide)]
  rw [show check_aggregation_risk seq_even2 = none from by decide]
  rw [show check_protease_sites seq_even2 = none from by decide]
  rw [show check_oxidation_risk seq_even2 = none from by decide]
  rw [show check_degradation_risk seq_even2 = none from by decide]
  rfl

/-- Low-complexity warning for the odd test sequence. -/
theorem check_struct_seq_odd :
    check_structural_features seq_odd =
      { Evaluation.empty with warnings := [.complexity_low] } := by
  rw [check_structural_features]
  rw [calculate_sequence_complexity]
  rw [show (two_mers seq_odd).length = 19 from by decide]
  rw [show (two_mers seq_odd).dedup.length = 4 from by decide]
  rw [if_neg (by norm_num)]
  rw [if_neg (by decide)]
  rfl

/-- Low-complexity warning for the zero-cysteine test sequence. -/
theorem check_struct_seq_even0 :
    check_structural_features seq_even0 =
      { Evaluation.empty with warnings := [.complexity_low] } := by
  rw [check_structural_features]
  rw [calculate_sequence_complexity]
  rw [show (two_mers seq_even0).length = 19 from by decide]
  rw [show (two_mers seq_even0).dedup.length = 2 from by decide]
  rw [if_neg (by norm_num)]
  rw [if_neg (by decide)]
  rfl

/-- Low-complexity warning for the two-cysteine test sequence. -/
theorem check_struct_seq_even2 :
    check_structural_features seq_even2 =
      { Evaluation.empty with warnings := [.complexity_low] } := by
  rw [check_structural_features]
  rw [calculate_sequence_complexity]
  rw [show (two_mers seq_even2).length = 19 from by decide]
  rw [show (two_mers seq_even2).dedup.length = 4 from by decide]
  rw [if_neg (by norm_num)]
  rw [if_neg (by decide)]
  rfl

/-- The non-cysteine battery agrees on the three test sequences. -/
theorem run_checks_other_seq_odd :
    run_checks_other seq_odd bio_default = eval_other_20 := by
  rw [run_checks_other, check_bio_default, check_manu_seq_odd,
    check_struct_seq_odd]
  rw [show check_sequence_length seq_odd =
    { Evaluation.empty with issues := [.length_out_of_range] } from by decide]
  rw [show check_problematic_motifs seq_odd =
    { Evaluation.empty with passes := [.motifs_clean] } from by decide]
  rfl

/-- The non-cysteine battery result for the zero-cysteine sequence. -/
theorem run_checks_other_seq_even0 :
    run_checks_other seq_even0 bio_default = eval_other_20 := by
  rw [run_checks_other, check_bio_default, check_manu_seq_even0,
    check_struct_seq_even0]
  rw [show check_sequence_length seq_even0 =
    { Evaluation.empty with issues := [.length_out_of_range] } from by decide]
  rw [show check_problematic_motifs seq_even0 =
    { Evaluation.empty with passes := [.motifs_clean] } from by decide]
  rfl

/-- The non-cysteine battery result for the two-cysteine sequence. -/
theorem run_checks_other_seq_even2 :
    run_checks_other seq_even2 bio_default = eval_other_20 := by
  rw [run_checks_other, check_bio_default, check_manu_seq_even2,
    check_struct_seq_even2]
  rw [show check_sequence_length seq_even2 =
    { Evaluation.empty with issues := [.length_out_of_range] } from by decide]
  rw [show check_problematic_motifs seq_even2 =
    { Evaluation.empty with passes := [.motifs_clean] } from by decide]
  rfl

/-- Full battery result for the odd test sequence. -/
theorem run_checks_seq_odd :
    run_checks seq_odd bio_default =
      { passes := [.motifs_clean, .pi_ok, .gravy_ok, .stable_protein,
          .manufacturing_clean],
        warnings := [.complexity_low],
        issues := [.length_out_of_range],
        critical_issues := [.cysteine_odd],
        manufacturing_risks := [] } := by
  rw [run_checks, check_bio_default, check_manu_seq_odd, check_struct_seq_odd]
  rw [show check_sequence_length seq_odd =
    { Evaluation.empty with issues := [.length_out_of_range] } from by decide]
  rw [show check_problematic_motifs seq_odd =
    { Evaluation.empty with passes := [.motifs_clean] } from by decide]
  rw [show check_cysteine_patterns seq_odd =
    { Evaluation.empty with critical_issues := [.cysteine_odd] } from by decide]
  rfl

/-- Full battery result for the zero-cysteine test sequence. -/
theorem run_checks_seq_even0 :
    run_checks seq_even0 bio_default =
      { passes := [.motifs_clean, .pi_ok, .gravy_ok, .stable_protein,
          .manufacturing_clean],
        warnings := [.cysteine_low, .complexity_low],
        issues := [.length_out_of_range],
        critical_issues := [],
        manufacturing_risks := [] } := by
  rw [run_checks, check_bio_default, check_manu_seq_even0,
    check_struct_seq_even0]
  rw [show check_sequence_length seq_even0 =
    { Evaluation.empty with issues := [.length_out_of_range] } from by decide]
  rw [show check_problematic_motifs seq_even0 =
    { Evaluation.empty with passes := [.motifs_clean] } from by decide]
  rw [show check_cysteine_patterns seq_even0 =
    { Evaluation.empty with warnings := [.cysteine_low] } from by decide]
  rfl

/-! ## Claim theorems -/

/-- C1: for every candidate in a run, the combined score equals
0.3·support + 0.1·evidence + 0.3·design confidence + 0.3·feasibility, where
the evidence term is the single run-level scout score shared by all
candidates. -/
theorem c1_combined_score_formula (mutation_id : String)
    (num_candidates : Int) (env : RetrievalEnv) (bio : List Char → BioProps)
    (r : Rng) (rc : RankedCandidate)
    (hm : rc ∈ pipeline_ranked mutation_id num_candidates env bio r) :
    rc.combined_score =
      (3/10) * rc.link.scientific_support_score +
      (1/10) * calculate_evidence_score env.scout_mutation_hits
        env.scout_literature_hits +
      (3/10) * rc.cand.design_confidence +
      (3/10) * rc.feas.feasibility_score ∧
    rc.evidence_score =
      calculate_evidence_score env.scout_mutation_hits
        env.scout_literature_hits := by
  rw [pipeline_ranked, rank_candidates] at hm
  simp only [List.mem_mergeSort, List.mem_map] at hm
  obtain ⟨c, _, rfl⟩ := hm
  exact ⟨rfl, rfl⟩

/-- C1 witness: the formula instantiated on a concrete one-candidate run with
empty retrievals. -/
theorem c1_witness :
    ((pipeline_ranked "T798I" 1 empty_env bio_const rng_zero).headD
        default).combined_score =
      (3/10) * ((pipeline_ranked "T798I" 1 empty_env bio_const
          rng_zero).headD default).link.scientific_support_score +
      (1/10) * calculate_evidence_score [] [] +
      (3/10) * ((pipeline_ranked "T798I" 1 empty_env bio_const
          rng_zero).headD default).cand.design_confidence +
      (3/10) * ((pipeline_ranked "T798I" 1 empty_env bio_const
          rng_zero).headD default).feas.feasibility_score := by
  have hne : pipeline_ranked "T798I" 1 empty_env bio_const rng_zero ≠ [] := by
    intro h
    have hl := length_pipeline_ranked "T798I" 1 empty_env bio_const rng_zero
    rw [h] at hl
    simp at hl
  exact (c1_combined_score_formula "T798I" 1 empty_env bio_const rng_zero _
    (headD_mem hne default)).1

/-- C2: the report's top-3 list is the 3-prefix of the stable descending sort
of the scored candidates: sorted by combined score, a permutation of the
input, dominating everything dropped, and order-preserving on ties. -/
theorem c2_top3_sorted_stable (mutation_id : String) (scout : ScoutResult)
    (l : List RankedCandidate) :
    (generate_report mutation_id (rank_candidates l) scout).top_candidates =
      (rank_candidates l).take 3 ∧
    (rank_candidates l).Pairwise
      (fun a b => b.combined_score ≤ a.combined_score) ∧
    List.Perm (rank_candidates l) l ∧
    (∀ x ∈ (rank_candidates l).take 3, ∀ y ∈ (rank_candidates l).drop 3,
      y.combined_score ≤ x.combined_score) ∧
    (∀ a b : RankedCandidate, a.combined_score = b.combined_score →
      List.Sublist [a, b] l → List.Sublist [a, b] (rank_candidates l)) := by
  have hsorted : (rank_candidates l).Pairwise
      (fun a b => b.combined_score ≤ a.combined_score) := by
    have h := List.sorted_mergeSort combined_le_trans combined_le_total l
    exact h.imp (fun hab => of_decide_eq_true hab)
  refine ⟨rfl, hsorted, List.mergeSort_perm l _, ?_, ?_⟩
  · intro x hx y hy
    rw [← List.take_append_drop 3 (rank_candidates l)] at hsorted
    exact (List.pairwise_append.mp hsorted).2.2 x hx y hy
  · intro a b hab hsub
    exact List.pair_sublist_mergeSort combined_le_trans combined_le_total
      (decide_eq_true (le_of_eq hab.symm)) hsub

/-- C2 witness: two tied candidates keep their input order through the
ranking sort. -/
theorem c2_witness :
    List.Sublist [rc_fix 1 (1/2), rc_fix 2 (1/2)]
      (rank_candidates
        [rc_fix 0 (9/10), rc_fix 1 (1/2), rc_fix 2 (1/2), rc_fix 3 (7/10)]) :=
  (c2_top3_sorted_stable "L755S" scout0
      [rc_fix 0 (9/10), rc_fix 1 (1/2), rc_fix 2 (1/2),
        rc_fix 3 (7/10)]).2.2.2.2
    (rc_fix 1 (1/2)) (rc_fix 2 (1/2)) rfl
    (List.Sublist.cons _ (List.Sublist.cons₂ _ (List.Sublist.cons₂ _
      (List.nil_sublist _))))

/-- C3: the repair step tests the pattern N-[G/S]-[^P] where the
glycosylation motif (as defined by count_glycosylation_sites in the same
source file) is N-[^P]-[S/T]; the synthesizer can therefore emit a repaired
loop that still contains the motif.  Under the recorded draw stream the
D769H loop1 comes out as NASYQYQYQY, is left unchanged by repair, and
contains the N-A-S glycosylation site. -/
theorem c3_repair_misses_glyco_motif :
    (generate_optimized_cdr "D769H" .cdr1 10 rng_c3).1 = "NASYQYQYQY".data ∧
    0 < count_glycosylation_sites
      ((generate_optimized_cdr "D769H" .cdr1 10 rng_c3).1) := by
  constructor
  · decide
  · decide

/-- C4 as stated is false: with an empty mutation identifier and candidate
count 0 the run completes and returns a normal report with zero candidates
instead of failing. -/
theorem c4_counterexample :
    (run_for_mutation "" 0 empty_env bio_const rng_zero).toOption.map
      Report.candidates_generated = some 0 ∧
    (run_for_mutation "" 0 empty_env bio_const rng_zero).toOption.map
      Report.top_candidates = some [] := by
  have h0 : pipeline_ranked "" 0 empty_env bio_const rng_zero = [] := by
    have hl := length_pipeline_ranked "" 0 empty_env bio_const rng_zero
    simp at hl
    exact hl
  constructor
  · simp [run_for_mutation, generate_report, h0, Except.toOption]
  · simp [run_for_mutation, generate_report, h0, Except.toOption]

/-- C4 amended: neither a non-positive candidate count nor an empty mutation
identifier is rejected; the run always returns a normal report, and with a
non-positive count that report carries zero candidates, an empty top list and
top score 0. -/
theorem c4_amended_no_rejection :
    (∀ (n : Int), n ≤ 0 → ∀ (mutation_id : String) (env : RetrievalEnv)
      (bio : List Char → BioProps) (r : Rng),
      ∃ rep, run_for_mutation mutation_id n env bio r = .ok rep ∧
        rep.candidates_generated = 0 ∧ rep.top_candidates = [] ∧
        rep.top_score = 0) ∧
    (∀ (n : Int) (env : RetrievalEnv) (bio : List Char → BioProps) (r : Rng),
      ∃ rep, run_for_mutation "" n env bio r = .ok rep) := by
  constructor
  · intro n hn mutation_id env bio r
    have h0 : pipeline_ranked mutation_id n env bio r = [] := by
      have hl := length_pipeline_ranked mutation_id n env bio r
      rw [Int.toNat_of_nonpos hn] at hl
      exact List.length_eq_zero.mp hl
    refine ⟨_, rfl, ?_, ?_, ?_⟩
    · simp [generate_report, h0]
    · simp [generate_report, h0]
    · simp [generate_report, h0]
  · intro n env bio r
    exact ⟨_, rfl⟩

/-- C4 witness: the amended statement at count −1 and at the empty mutation
identifier. -/
theorem c4_witness :
    (∃ rep, run_for_mutation "L755S" (-1) empty_env bio_const rng_zero =
      .ok rep ∧ rep.candidates_generated = 0 ∧ rep.top_candidates = [] ∧
      rep.top_score = 0) ∧
    (∃ rep, run_for_mutation "" 3 empty_env bio_const rng_zero = .ok rep) :=
  ⟨c4_amended_no_rejection.1 (-1) (by norm_num) "L755S" empty_env bio_const
      rng_zero,
    c4_amended_no_rejection.2 3 empty_env bio_const rng_zero⟩

/-- C5 as stated is false: against the otherwise-identical zero-cysteine
sequence (even count, hence a warning rather than a pass from the cysteine
check), the odd sequence's rounded score 0.396 exceeds half of the
counterpart's 0.713. -/
theorem c5_counterexample :
    count_char seq_odd 'C' % 2 = 1 ∧ count_char seq_even0 'C' % 2 = 0 ∧
    run_checks_other seq_odd bio_default =
      run_checks_other seq_even0 bio_default ∧
    (run_checks seq_odd bio_default).critical_issues ≠ [] ∧
    ¬ (feasibility_score_of seq_odd bio_default ≤
        (1/2) * feasibility_score_of seq_even0 bio_default) := by
  refine ⟨by decide, by decide, ?_, ?_, ?_⟩
  · rw [run_checks_other_seq_odd, run_checks_other_seq_even0]
  · rw [run_checks_seq_odd]
    simp
  · rw [feasibility_score_of, feasibility_score_of, run_checks_seq_odd,
      run_checks_seq_even0]
    rw [calculate_final_score, calculate_final_score, penalty_product,
      penalty_product, pass_bonus, pass_bonus]
    norm_num [round3]

/-- C5 amended: an odd cysteine count makes critical_issues non-empty, and
the odd sequence's pre-rounding score is at most 0.5 times the pre-clamp,
pre-rounding score of an otherwise identical sequence whose even cysteine
count lies within 2–6 (the in-range case the 0.5-factor comparison holds
for; outside that range the counterpart gets a warning instead of a pass,
and the 1.0 clamp or the 3-decimal rounding can each break the factor). -/
theorem c5_amended_odd_cysteine (s1 s2 : List Char) (p1 p2 : BioProps)
    (hodd : count_char s1 'C' % 2 = 1)
    (heven : count_char s2 'C' % 2 = 0)
    (h2 : 2 ≤ count_char s2 'C') (h6 : count_char s2 'C' ≤ 6)
    (hsame : run_checks_other s1 p1 = run_checks_other s2 p2) :
    (run_checks s1 p1).critical_issues ≠ [] ∧
    min 1 (penalty_product (run_checks s1 p1) * pass_bonus (run_checks s1 p1))
      ≤ (1/2) * (penalty_product (run_checks s2 p2) *
          pass_bonus (run_checks s2 p2)) := by
  have hc1 := check_cysteine_odd s1 hodd
  have hc2 := check_cysteine_even_ok s2 heven h2 h6
  have hA : penalty_product (run_checks s1 p1) =
      (1/2) * penalty_product (run_checks_other s1 p1) := by
    rw [penalty_product, penalty_product]
    rw [critical_length_run_checks, issues_length_run_checks,
      warnings_length_run_checks, risks_length_run_checks, hc1]
    simp only [Evaluation.empty, List.length_cons, List.length_nil,
      Nat.add_zero]
    ring
  have hB : pass_bonus (run_checks s1 p1) =
      pass_bonus (run_checks_other s1 p1) := by
    rw [pass_bonus, pass_bonus, passes_length_run_checks, hc1]
    simp [Evaluation.empty]
  have hA2 : penalty_product (run_checks s2 p2) =
      penalty_product (run_checks_other s2 p2) := by
    rw [penalty_product, penalty_product]
    rw [critical_length_run_checks, issues_length_run_checks,
      warnings_length_run_checks, risks_length_run_checks, hc2]
    simp [Evaluation.empty]
  have hB2 : pass_bonus (run_checks s2 p2) =
      pass_bonus (run_checks_other s2 p2) + 2/100 := by
    rw [pass_bonus, pass_bonus, passes_length_run_checks, hc2]
    simp only [Evaluation.empty, List.length_cons, List.length_nil,
      Nat.zero_add]
    push_cast
    ring
  constructor
  · intro hnil
    have hl := critical_length_run_checks s1 p1
    rw [hnil, hc1] at hl
    simp [Evaluation.empty] at hl
  · rw [hA, hB, hA2, hB2, hsame]
    have hP : 0 ≤ penalty_product (run_checks_other s2 p2) :=
      penalty_product_nonneg _
    calc min 1 ((1/2) * penalty_product (run_checks_other s2 p2) *
          pass_bonus (run_checks_other s2 p2))
        ≤ (1/2) * penalty_product (run_checks_other s2 p2) *
            pass_bonus (run_checks_other s2 p2) := min_le_right _ _
      _ ≤ (1/2) * (penalty_product (run_checks_other s2 p2) *
            (pass_bonus (run_checks_other s2 p2) + 2/100)) := by
          nlinarith [hP]

/-- C5 witness: the amended statement on the concrete odd- and two-cysteine
test sequences. -/
theorem c5_witness :
    (run_checks seq_odd bio_default).critical_issues ≠ [] ∧
    min 1 (penalty_product (run_checks seq_odd bio_default) *
        pass_bonus (run_checks seq_odd bio_default)) ≤
      (1/2) * (penalty_product (run_checks seq_even2 bio_default) *
        pass_bonus (run_checks seq_even2 bio_default)) :=
  c5_amended_odd_cysteine seq_odd seq_even2 bio_default bio_default
    (by decide) (by decide) (by decide) (by decide)
    (by rw [run_checks_other_seq_odd, run_checks_other_seq_even2])

/-- C6: both scout retrievals empty gives evidence score exactly 0.3, and an
empty linker retrieval gives support score exactly 0.4 for every candidate,
whatever its design confidence. -/
theorem c6_degenerate_fallback_scores :
    calculate_evidence_score [] [] = 3/10 ∧
    ∀ (mutation_id : String) (c : Candidate),
      (link_evidence mutation_id c []).scientific_support_score = 4/10 := by
  constructor
  · rw [calculate_evidence_score]
    rw [if_pos ⟨rfl, rfl⟩]
  · intro mutation_id c
    rfl

/-- C7 as stated is false: handed a 20-residue template CDR3, the produced
candidate's loop3 keeps length 20, outside 8–15. -/
theorem c7_counterexample :
    ((design_candidates "L755S" (some templ20) 1 rng_zero).1.headD default) ∈
      (design_candidates "L755S" (some templ20) 1 rng_zero).1 ∧
    ¬ (((design_candidates "L755S" (some templ20) 1 rng_zero).1.headD
        default).cdr3.length ≤ 15) := by
  have hne : (design_candidates "L755S" (some templ20) 1 rng_zero).1 ≠ [] := by
    intro h
    have hl := length_design_candidates "L755S" (some templ20) 1 rng_zero
    rw [h] at hl
    simp at hl
  refine ⟨headD_mem hne default, ?_⟩
  obtain ⟨j, r', he⟩ :=
    mem_design_candidates "L755S" (some templ20) 1 rng_zero _
      (headD_mem hne default)
  have h5 := (design_one_spec "L755S" (some templ20) j r').2.2.2.2 templ20 rfl
  rw [he, h5]
  decide

/-- C7 amended: every candidate's sequence length is the selected variable
framework length plus 10 (loop1) plus 16 (loop2) plus the loop3 length plus
the 54 residues of the three fixed framework literals; loop3 lies in 8–15
when no template is supplied, and has exactly the template's length
otherwise. -/
theorem c7_amended_sequence_length (mutation_id : String)
    (template_cdr3 : Option (List Char)) (num_candidates : Int) (r : Rng)
    (c : Candidate)
    (hc : c ∈ (design_candidates mutation_id template_cdr3 num_candidates
      r).1) :
    c.sequence.length =
      c.framework_seq.length + 10 + 16 + c.cdr3.length +
        (framework_region_2.length + framework_region_3.length +
          framework_region_4.length) ∧
    framework_region_2.length + framework_region_3.length +
      framework_region_4.length = 54 ∧
    (template_cdr3 = none → 8 ≤ c.cdr3.length ∧ c.cdr3.length ≤ 15) ∧
    (∀ t, template_cdr3 = some t → c.cdr3.length = t.length) := by
  obtain ⟨j, r', rfl⟩ :=
    mem_design_candidates mutation_id template_cdr3 num_candidates r c hc
  obtain ⟨h1, h2, h3, h4, h5⟩ :=
    design_one_spec mutation_id template_cdr3 j r'
  refine ⟨?_, by decide, h4, h5⟩
  rw [h1, h2, h3]
  omega

/-- C7 witness: the amended statement on a concrete template-free
one-candidate run. -/
theorem c7_witness :
    ((design_candidates "T798I" none 1 rng_zero).1.headD
        default).sequence.length =
      ((design_candidates "T798I" none 1 rng_zero).1.headD
        default).framework_seq.length + 10 + 16 +
      ((design_candidates "T798I" none 1 rng_zero).1.headD
        default).cdr3.length +
      (framework_region_2.length + framework_region_3.length +
        framework_region_4.length) ∧
    8 ≤ ((design_candidates "T798I" none 1 rng_zero).1.headD
        default).cdr3.length ∧
    ((design_candidates "T798I" none 1 rng_zero).1.headD
        default).cdr3.length ≤ 15 := by
  have hne : (design_candidates "T798I" none 1 rng_zero).1 ≠ [] := by
    intro h
    have hl := length_design_candidates "T798I" none 1 rng_zero
    rw [h] at hl
    simp at hl
  have h := c7_amended_sequence_length "T798I" none 1 rng_zero _
    (headD_mem hne default)
  exact ⟨h.1, (h.2.2.1 rfl).1, (h.2.2.1 rfl).2⟩

/-- C8: hits with a missing or zero similarity score are dropped from the
scout's per-set mean (adding such a hit never changes a non-degenerate
score), and a single zero-scored analog hit with no literature scores 0.0,
strictly below the 0.3 both-empty fallback. -/
theorem c8_zero_scores_excluded (h : Hit)
    (hex : h.score = none ∨ h.score = some 0) (muts lits : List Hit)
    (hne : muts ≠ [] ∨ lits ≠ []) :
    calculate_evidence_score (h :: muts) lits =
      calculate_evidence_score muts lits ∧
    calculate_evidence_score [h] [] = 0 ∧ (0 : ℚ) < 3/10 := by
  have htr : truthy_scores (h :: muts) = truthy_scores muts := by
    rcases hex with he | he
    · simp [truthy_scores, List.filterMap_cons, he]
    · simp [truthy_scores, List.filterMap_cons, he]
  refine ⟨?_, ?_, by norm_num⟩
  · rw [calculate_evidence_score, calculate_evidence_score]
    rw [if_neg (by simp)]
    rw [if_neg (fun hand => hne.elim (fun hx => hx hand.1)
      (fun hx => hx hand.2))]
    rw [htr]
  · have h1 : truthy_scores [h] = [] := by
      rcases hex with he | he <;>
        simp [truthy_scores, List.filterMap_cons, he]
    rw [calculate_evidence_score]
    rw [if_neg (by simp)]
    rw [h1, show truthy_scores ([] : List Hit) = [] from rfl]
    norm_num [mean_or_zero, round3]

/-- C8 witness: one zero-scored hit prepended to a real hit leaves the score
unchanged, and alone it scores 0.0. -/
theorem c8_witness :
    calculate_evidence_score [{ score := some 0 }, { score := some (1/2) }]
        [] =
      calculate_evidence_score [{ score := some (1/2) }] [] ∧
    calculate_evidence_score [{ score := some 0 }] [] = 0 ∧ (0 : ℚ) < 3/10 :=
  c8_zero_scores_excluded { score := some 0 } (Or.inr rfl)
    [{ score := some (1/2) }] [] (Or.inl (by simp))

/-- C9: pattern repair only substitutes residues in place; for every input
sequence and every draw stream the repaired sequence has the input's
length. -/
theorem c9_repair_length_preserving (s : List Char) (r : Rng) :
    ((fix_problematic_patterns s r).1).length = s.length :=
  length_fix_problematic_patterns s r

/-- C10: the feasibility evaluation threads the candidate object through
unchanged — every field of the input candidate is returned as it came in —
and the report is the freshly built structure. -/
theorem c10_evaluate_leaves_candidate_unchanged (c : Candidate)
    (p : BioProps) :
    (evaluate_candidate_tracked c p).1 = c ∧
    (evaluate_candidate_tracked c p).2 = evaluate_candidate c p :=
  ⟨rfl, rfl⟩
